import Mathlib

/-!
Shallow embedding of `AgentSmith.py`, a user-agent string generator.

The program loads a JSON catalog of browsers (each with version strings and a
list of operating systems, each OS with version strings), validates the
catalog shape, randomly selects a browser / browser version / OS / OS version,
formats a user-agent string from browser-specific templates, and checks the
result with `validate_user_agent`.

Modelling conventions:
* JSON values are the inductive `Json`.
* Python exceptions are `PyExc`; the program-defined exception hierarchy
  rooted at `UserAgentError` is the inductive `UAError`, embedded into
  `PyExc` via `PyExc.ua`.  Builtin Python exceptions (`PermissionError`,
  `TypeError`, `KeyError`, ...) are the other `PyExc` constructors.
* Fallible Python functions become `Except PyExc`-valued Lean functions;
  the `try/except` wrappers at the end of `load_user_agents` and
  `generate_user_agent` become explicit `wrap*` functions applied to a
  `*_raw` body.
* The file system is a `FileState` record (existence, readability, parse
  outcome of the file contents); `random.choice` becomes `pyChoice`, which
  receives an unconstrained selector `Nat` and reduces it modulo the list
  length, so theorems quantified over all selectors cover every possible
  random outcome.
* Python `str` operations are modelled on `List Char` (`String.data`):
  `startswith` is `strStarts`, substring membership (`in`) is `strHasSub`,
  `str.count` of a character is `List.count`, `len` is `String.length`, and
  `replace` with one-character arguments is the character map `replaceChar`.
-/

/-- JSON values as parsed by Python's `json.load`.  Objects keep their fields
as an association list (keys are unique in parsed JSON; lookups take the
first binding). -/
inductive Json where
  | null : Json
  | bool (b : Bool) : Json
  | num (n : Int) : Json
  | str (s : String) : Json
  | arr (elems : List Json) : Json
  | obj (fields : List (String × Json)) : Json

/-- Python `x == "lit"` for a JSON value `x` and a string literal: true
exactly when `x` is that string. -/
def Json.eqStr : Json → String → Bool
  | .str s, t => s == t
  | _, _ => false

/-- The `UserAgentError` exception hierarchy defined by the program: the base
class plus its four subclasses.  There is no permission-specific subclass in
the source. -/
inductive UAError where
  | base (msg : String) : UAError
  | invalidJSONFormat (msg : String) : UAError
  | fileNotFound (msg : String) : UAError
  | emptyData (msg : String) : UAError
  | invalidUserAgent (msg : String) : UAError
deriving DecidableEq, Repr

/-- Python exceptions that the program can raise: members of the
`UserAgentError` hierarchy, or builtin exceptions (which are *not* part of
that hierarchy). -/
inductive PyExc where
  | ua (e : UAError) : PyExc
  | permissionError (msg : String) : PyExc
  | typeError (msg : String) : PyExc
  | keyError (msg : String) : PyExc
  | attributeError (msg : String) : PyExc
  | indexError (msg : String) : PyExc
deriving DecidableEq, Repr

/-- `str(e)` for the builtin exceptions the model can raise (used by the
`except` wrappers when they interpolate the caught exception into a new
message). -/
def PyExc.message : PyExc → String
  | .ua (.base m) => m
  | .ua (.invalidJSONFormat m) => m
  | .ua (.fileNotFound m) => m
  | .ua (.emptyData m) => m
  | .ua (.invalidUserAgent m) => m
  | .permissionError m => m
  | .typeError m => m
  | .keyError m => m
  | .attributeError m => m
  | .indexError m => m

/-- Whether an exception belongs to the `UserAgentError` hierarchy
(`isinstance(e, UserAgentError)`). -/
def PyExc.isUA : PyExc → Bool
  | .ua _ => true
  | _ => false

/-- Python truthiness of a JSON value (`bool(x)` for the values `json.load`
can produce). -/
def Json.truthy : Json → Bool
  | .null => false
  | .bool b => b
  | .num n => n != 0
  | .str s => !s.isEmpty
  | .arr elems => !elems.isEmpty
  | .obj fields => !fields.isEmpty

/-- `isinstance(x, dict)`. -/
def Json.isObj : Json → Bool
  | .obj _ => true
  | _ => false

/-- Key lookup on a JSON object; `none` when the value is not an object or
the key is absent.  Used to model both `k in d` and (together with the
callers' error handling) `d[k]` / `d.get(k)`. -/
def jLookup : Json → String → Option Json
  | .obj fields, k => fields.lookup k
  | _, _ => none

/-- `d.get(k)`: on a dict returns the value or `None`; on any other value
Python raises `AttributeError`. -/
def Json.pyGet : Json → String → Except PyExc Json
  | .obj fields, k => .ok ((fields.lookup k).getD .null)
  | _, _ => .error (.attributeError "object has no attribute get")

/-- `d[k]`: on a dict returns the value or raises `KeyError`; on any other
value Python raises `TypeError`. -/
def Json.pyIndex : Json → String → Except PyExc Json
  | .obj fields, k =>
    match fields.lookup k with
    | some v => .ok v
    | none => .error (.keyError k)
  | _, _ => .error (.typeError "object is not subscriptable")

/-- Elements of a JSON value used as a sequence (iteration and
`random.choice`).  Only arrays are iterated as sequences here; the program
only ever reaches this on values its callers validated or filtered to be
lists, and on any other value we raise `TypeError` (abstracting Python's
iteration of strings/dicts, which no code path of interest reaches). -/
def Json.asList : Json → Except PyExc (List Json)
  | .arr elems => .ok elems
  | _ => .error (.typeError "object is not iterable")

/-- `str(x)` as used by f-string interpolation of catalog values.  Catalog
values of interest are strings; the container renderings abstract Python's
`repr` (no claim depends on them). -/
def Json.pyStr : Json → String
  | .null => "None"
  | .bool true => "True"
  | .bool false => "False"
  | .num n => toString n
  | .str s => s
  | .arr _ => "<list>"
  | .obj _ => "<dict>"

/-- `hay` starts with `needle` (Python `str.startswith`), on character
lists. -/
def strStarts : List Char → List Char → Bool
  | _, [] => true
  | [], _ :: _ => false
  | a :: as, b :: bs => a == b && strStarts as bs

/-- `needle in hay` (Python substring membership), on character lists. -/
def strHasSub (needle : List Char) : List Char → Bool
  | [] => strStarts [] needle
  | c :: rest => strStarts (c :: rest) needle || strHasSub needle rest

/-- Python `s.startswith(p)` on strings. -/
def pyStartsWith (s p : String) : Bool := strStarts s.data p.data

/-- Python `p in s` on strings. -/
def pyContains (s p : String) : Bool := strHasSub p.data s.data

/-- Python `s.replace(a, b)` for one-character `a` and `b`: a character-wise
map. -/
def replaceChar (cFrom cTo : Char) (s : String) : String :=
  ⟨s.data.map fun c => if c = cFrom then cTo else c⟩

/-- `get_os_string` from the source, on string arguments (the `TypeError`
branch for non-string arguments is handled at the call site by
`get_os_string_json`). -/
def get_os_string (os_name os_version : String) : String :=
  if os_name = "Windows" then
    "Windows NT " ++ os_version ++ "; Win64; x64"
  else if os_name = "Mac OS" then
    if os_version.data.contains '_' then
      "Macintosh; Intel Mac OS X " ++ os_version
    else
      "Macintosh; Intel Mac OS X " ++ replaceChar '.' '_' os_version
  else if os_name = "Linux" then
    "X11; Linux " ++ os_version
  else
    os_name ++ " " ++ os_version

/-- `get_os_string` as called by the generator, on raw JSON values: the
`isinstance` guard raises `TypeError`, which the function's own
`except` clause wraps into a base `UserAgentError`. -/
def get_os_string_json (os_name os_version : Json) : Except PyExc String :=
  match os_name, os_version with
  | .str n, .str v => .ok (get_os_string n v)
  | _, _ =>
    .error (.ua (.base
      "Error formatting OS string: OS name and version must be strings"))

/-- `validate_user_agent` from the source: five checks in order, first
failure returns `False`. -/
def validate_user_agent (user_agent : String) : Bool :=
  if !pyStartsWith user_agent "Mozilla/5.0" then false
  else if user_agent.data.count '(' != user_agent.data.count ')' then false
  else if user_agent.length < 30 then false
  else if !(["Chrome", "Firefox", "Safari", "Edg"].any fun p =>
      pyContains user_agent p) then false
  else if !(["Windows", "Mac OS X", "Linux", "X11"].any fun p =>
      pyContains user_agent p) then false
  else true

/-- `browser.get('name', f'at index ...')` rendered with `str` — the label
used in validation error messages. -/
def browserLabel (i : Nat) (fields : List (String × Json)) : String :=
  match fields.lookup "name" with
  | some v => v.pyStr
  | none => "at index " ++ toString i

/-- One OS entry of a browser, as checked by `validate_json_structure`:
must be a dict, with a `name` field, and a non-empty `versions` list. -/
def validateOsEntry (bl : String) (j : Nat) (os_info : Json) :
    Except PyExc Unit :=
  match os_info with
  | .obj fs =>
    if (fs.lookup "name").isNone then
      .error (.ua (.invalidJSONFormat
        ("OS at index " ++ toString j ++ " for browser '" ++ bl ++
          "' is missing 'name' field")))
    else
      match fs.lookup "versions" with
      | some (.arr vl) =>
        if vl.isEmpty then
          .error (.ua (.invalidJSONFormat
            ("OS '" ++ (browserLabel j fs) ++ "' for browser '" ++ bl ++
              "' must have non-empty 'versions' list")))
        else .ok ()
      | _ =>
        .error (.ua (.invalidJSONFormat
          ("OS '" ++ (browserLabel j fs) ++ "' for browser '" ++ bl ++
            "' must have non-empty 'versions' list")))
  | _ =>
    .error (.ua (.invalidJSONFormat
      ("OS at index " ++ toString j ++ " for browser '" ++ bl ++
        "' must be a dictionary")))

/-- The `for j, os_info in enumerate(browser["os"])` loop of
`validate_json_structure`. -/
def validateOsList (bl : String) : Nat → List Json → Except PyExc Unit
  | _, [] => .ok ()
  | j, o :: rest => do
    validateOsEntry bl j o
    validateOsList bl (j + 1) rest

/-- One browser entry, as checked by `validate_json_structure`: must be a
dict with `name`/`versions`/`os` (checked in that order), non-empty
`versions` list, non-empty `os` list, each OS entry valid. -/
def validateBrowser (i : Nat) (browser : Json) : Except PyExc Unit :=
  match browser with
  | .obj fs =>
    if (fs.lookup "name").isNone then
      .error (.ua (.invalidJSONFormat
        ("Browser at index " ++ toString i ++ " is missing 'name' field")))
    else if (fs.lookup "versions").isNone then
      .error (.ua (.invalidJSONFormat
        ("Browser at index " ++ toString i ++ " is missing 'versions' field")))
    else if (fs.lookup "os").isNone then
      .error (.ua (.invalidJSONFormat
        ("Browser at index " ++ toString i ++ " is missing 'os' field")))
    else
      match fs.lookup "versions" with
      | some (.arr vl) =>
        if vl.isEmpty then
          .error (.ua (.invalidJSONFormat
            ("Browser '" ++ browserLabel i fs ++
              "' must have non-empty 'versions' list")))
        else
          match fs.lookup "os" with
          | some (.arr ol) =>
            if ol.isEmpty then
              .error (.ua (.invalidJSONFormat
                ("Browser '" ++ browserLabel i fs ++
                  "' must have non-empty 'os' list")))
            else validateOsList (browserLabel i fs) 0 ol
          | _ =>
            .error (.ua (.invalidJSONFormat
              ("Browser '" ++ browserLabel i fs ++
                "' must have non-empty 'os' list")))
      | _ =>
        .error (.ua (.invalidJSONFormat
          ("Browser '" ++ browserLabel i fs ++
            "' must have non-empty 'versions' list")))
  | _ =>
    .error (.ua (.invalidJSONFormat
      ("Browser at index " ++ toString i ++ " must be a dictionary")))

/-- The `for i, browser in enumerate(data["browsers"])` loop of
`validate_json_structure`. -/
def validateBrowsers : Nat → List Json → Except PyExc Unit
  | _, [] => .ok ()
  | i, b :: rest => do
    validateBrowser i b
    validateBrowsers (i + 1) rest

/-- `validate_json_structure` from the source.  Raises
`InvalidJSONFormatError` on the first violation, returns unit otherwise. -/
def validate_json_structure (data : Json) : Except PyExc Unit :=
  match data with
  | .obj fields =>
    match fields.lookup "browsers" with
    | none =>
      .error (.ua (.invalidJSONFormat
        "JSON data must contain a 'browsers' key"))
    | some (.arr l) =>
      if l.isEmpty then
        .error (.ua (.invalidJSONFormat "'browsers' must be a non-empty list"))
      else validateBrowsers 0 l
    | some _ =>
      .error (.ua (.invalidJSONFormat "'browsers' must be a non-empty list"))
  | _ => .error (.ua (.invalidJSONFormat "JSON data must be a dictionary"))

/-- The observable state of the catalog file: whether it exists, whether the
process may read it, and the outcome of `json.load` on its contents (`none`
models a `json.JSONDecodeError`; the decode error's own message is
abstracted). -/
structure FileState where
  fsExists : Bool
  readable : Bool
  parsed : Option Json

/-- The `try` body of `load_user_agents`: existence check, readability
check (raising the *builtin* `PermissionError`), parse, structure
validation. -/
def load_raw (json_file : String) (fs : FileState) : Except PyExc Json := do
  if !fs.fsExists then
    throw (.ua (.fileNotFound ("File not found: " ++ json_file)))
  if !fs.readable then
    throw (.permissionError ("Permission denied: Cannot read " ++ json_file))
  match fs.parsed with
  | none => throw (.ua (.invalidJSONFormat "Invalid JSON format: <decode error>"))
  | some data => do
    validate_json_structure data
    return data

/-- The `except Exception` clause of `load_user_agents`: `UserAgentError`s
are re-raised unchanged, anything else is wrapped into the base
`UserAgentError`. -/
def wrapLoad : Except PyExc Json → Except PyExc Json
  | .ok d => .ok d
  | .error e =>
    if e.isUA then .error e
    else .error (.ua (.base ("Error loading user agents: " ++ e.message)))

/-- `load_user_agents` from the source, over the file-state model. -/
def load_user_agents (json_file : String) (fs : FileState) :
    Except PyExc Json :=
  wrapLoad (load_raw json_file fs)

/-- The four `random.choice` outcomes of one `generate_user_agent` run,
as unconstrained selector numbers (reduced modulo the respective list
length, so every list element is reachable). -/
structure Choices where
  browserSel : Nat
  browserVersionSel : Nat
  osSel : Nat
  osVersionSel : Nat

/-- `random.choice(xs)` with an explicit selector: any element of a
non-empty list; `IndexError` on an empty one. -/
def pyChoice (xs : List Json) (sel : Nat) : Except PyExc Json :=
  if xs.isEmpty then
    .error (.indexError "Cannot choose from an empty sequence")
  else .ok (xs.getD (sel % xs.length) .null)

/-- The generator's browser feasibility filter condition:
`browser.get('os') and isinstance(browser.get('versions'), list) and
browser['versions']`. -/
def feasibleBrowserCheck (browser : Json) : Except PyExc Bool := do
  let osv ← browser.pyGet "os"
  if !osv.truthy then return false
  let vs ← browser.pyGet "versions"
  match vs with
  | .arr vl => return !vl.isEmpty
  | _ => return false

/-- The generator's OS feasibility filter condition:
`os_info.get('versions') and isinstance(os_info['versions'], list) and
os_info['versions']`. -/
def feasibleOsCheck (os_info : Json) : Except PyExc Bool := do
  let vs ← os_info.pyGet "versions"
  if !vs.truthy then return false
  match vs with
  | .arr vl => return !vl.isEmpty
  | _ => return false

/-- A Python list comprehension with a fallible condition: keeps the
elements whose condition is truthy, propagating the first raised
exception. -/
def filterE (p : Json → Except PyExc Bool) : List Json → Except PyExc (List Json)
  | [] => .ok []
  | x :: xs => do
    let b ← p x
    let rest ← filterE p xs
    return if b then x :: rest else rest

/-- The user-agent templates of `generate_user_agent`, keyed on the
browser name value (`browser_name == "Chrome"`, ..., with a generic
fallback template). -/
def buildUserAgent (browserName : Json) (osStr : String)
    (browserVersion : Json) : String :=
  if browserName.eqStr "Chrome" then
    "Mozilla/5.0 (" ++ osStr ++
      ") AppleWebKit/537.36 (KHTML, like Gecko) Chrome/" ++
      browserVersion.pyStr ++ " Safari/537.36"
  else if browserName.eqStr "Firefox" then
    "Mozilla/5.0 (" ++ osStr ++ "; rv:" ++ browserVersion.pyStr ++
      ") Gecko/20100101 Firefox/" ++ browserVersion.pyStr
  else if browserName.eqStr "Safari" then
    "Mozilla/5.0 (" ++ osStr ++
      ") AppleWebKit/605.1.15 (KHTML, like Gecko) Version/" ++
      browserVersion.pyStr ++ " Safari/605.1.15"
  else if browserName.eqStr "Edge" then
    "Mozilla/5.0 (" ++ osStr ++
      ") AppleWebKit/537.36 (KHTML, like Gecko) Edg/" ++
      browserVersion.pyStr
  else
    "Mozilla/5.0 (" ++ osStr ++
      ") AppleWebKit/537.36 (KHTML, like Gecko) " ++
      browserName.pyStr ++ "/" ++ browserVersion.pyStr

/-- The `try` body of `generate_user_agent`: guards, feasibility filters,
four random choices, OS-string formatting, template selection by browser
name, and the final `validate_user_agent` check. -/
def generate_raw (data : Json) (c : Choices) : Except PyExc String := do
  if !data.truthy || !data.isObj || (jLookup data "browsers").isNone then
    throw (.ua (.emptyData "Invalid or empty data structure"))
  let browsersJ ← data.pyIndex "browsers"
  if !browsersJ.truthy then
    throw (.ua (.emptyData "No browser data available"))
  let browsersL ← browsersJ.asList
  let feasibleBrowsers ← filterE feasibleBrowserCheck browsersL
  if feasibleBrowsers.isEmpty then
    throw (.ua (.emptyData "No feasible browser data available"))
  let browser ← pyChoice feasibleBrowsers c.browserSel
  let browserName ← browser.pyIndex "name"
  let versionsJ ← browser.pyIndex "versions"
  let versionsL ← versionsJ.asList
  let browserVersion ← pyChoice versionsL c.browserVersionSel
  let osJ ← browser.pyIndex "os"
  let osL ← osJ.asList
  let feasibleOs ← filterE feasibleOsCheck osL
  if feasibleOs.isEmpty then
    throw (.ua (.emptyData
      ("No feasible OS data available for browser: " ++ browserName.pyStr)))
  let osInfo ← pyChoice feasibleOs c.osSel
  let osName ← osInfo.pyIndex "name"
  let osVersionsJ ← osInfo.pyIndex "versions"
  let osVersionsL ← osVersionsJ.asList
  let osVersion ← pyChoice osVersionsL c.osVersionSel
  let osStr ← get_os_string_json osName osVersion
  let userAgent := buildUserAgent browserName osStr browserVersion
  if !validate_user_agent userAgent then
    throw (.ua (.invalidUserAgent
      ("Generated invalid user agent: " ++ userAgent)))
  return userAgent

/-- The `except Exception` clause of `generate_user_agent`:
`UserAgentError`s re-raised unchanged, anything else wrapped into the base
`UserAgentError`. -/
def wrapGenerate : Except PyExc String → Except PyExc String
  | .ok s => .ok s
  | .error e =>
    if e.isUA then .error e
    else .error (.ua (.base ("Error generating user agent: " ++ e.message)))

/-- `generate_user_agent` from the source, with the random choices made
explicit. -/
def generate_user_agent (data : Json) (c : Choices) : Except PyExc String :=
  wrapGenerate (generate_raw data c)

/-- Modelled from the spec: §4.2 says the Mac OS branch "normalizes version
separators to underscore form"; this definition follows the spec's words
(every `.` separator becomes `_`), to be compared against the source's
`get_os_string`. -/
def specNormalizeSeparators (os_version : String) : String :=
  replaceChar '.' '_' os_version

/-- Structural facts about one OS entry that hold whenever
`validate_json_structure` accepted the catalog: a dict with a `name` field
and a non-empty `versions` array. -/
def osShape (os_info : Json) : Bool :=
  match os_info with
  | .obj fs =>
    (fs.lookup "name").isSome &&
      (match fs.lookup "versions" with
        | some (.arr vl) => !vl.isEmpty
        | _ => false)
  | _ => false

/-- Structural facts about one browser entry that hold whenever
`validate_json_structure` accepted the catalog. -/
def browserShape (browser : Json) : Bool :=
  match browser with
  | .obj fs =>
    (fs.lookup "name").isSome &&
      (match fs.lookup "versions" with
        | some (.arr vl) => !vl.isEmpty
        | _ => false) &&
      (match fs.lookup "os" with
        | some (.arr ol) => !ol.isEmpty && ol.all osShape
        | _ => false)
  | _ => false

/-- Structural facts about the whole catalog that hold whenever
`validate_json_structure` accepted it. -/
def catShape (data : Json) : Bool :=
  match data with
  | .obj fields =>
    match fields.lookup "browsers" with
    | some (.arr l) => !l.isEmpty && l.all browserShape
    | _ => false
  | _ => false

/-- The catalog's browser list (empty when the catalog has no `browsers`
array). -/
def catBrowsers (data : Json) : List Json :=
  match jLookup data "browsers" with
  | some (.arr l) => l
  | _ => []

/-- A version value that is a string holding neither `(` nor `)`. -/
def parenFreeVersion : Json → Bool
  | .str s => !s.data.contains '(' && !s.data.contains ')'
  | _ => false

/-- An OS entry whose name is one of the three recognized OS families and
whose versions are parenthesis-free strings. -/
def goodOsEntry (os_info : Json) : Bool :=
  match jLookup os_info "name", jLookup os_info "versions" with
  | some (.str n), some (.arr vl) =>
    (n == "Windows" || n == "Mac OS" || n == "Linux") &&
      vl.all parenFreeVersion
  | _, _ => false

/-- A browser entry whose name is one of the four recognized browser
families, whose versions are parenthesis-free strings, and whose OS entries
are all `goodOsEntry`. -/
def goodBrowser (browser : Json) : Bool :=
  match jLookup browser "name", jLookup browser "versions",
      jLookup browser "os" with
  | some (.str n), some (.arr vl), some (.arr ol) =>
    (n == "Chrome" || n == "Firefox" || n == "Safari" || n == "Edge") &&
      vl.all parenFreeVersion && ol.all goodOsEntry
  | _, _, _ => false

/-- The catalog of the spec's Chrome/Windows example: one browser
(`Chrome`, version `116.0`) with one OS (`Windows`, version `10.0`). -/
def chromeWindowsCatalog : Json :=
  .obj [("browsers", .arr [
    .obj [("name", .str "Chrome"),
          ("versions", .arr [.str "116.0"]),
          ("os", .arr [.obj [("name", .str "Windows"),
                             ("versions", .arr [.str "10.0"])]])]])]

/-- A catalog that passes `validate_json_structure` but whose only OS name
(`Android`) is none of the recognized OS families. -/
def androidCatalog : Json :=
  .obj [("browsers", .arr [
    .obj [("name", .str "Chrome"),
          ("versions", .arr [.str "116.0"]),
          ("os", .arr [.obj [("name", .str "Android"),
                             ("versions", .arr [.str "13"])]])]])]

/-- A catalog whose only browser has an empty `os` list. -/
def emptyOsCatalog : Json :=
  .obj [("browsers", .arr [
    .obj [("name", .str "Chrome"),
          ("versions", .arr [.str "116.0"]),
          ("os", .arr [])]])]

theorem errBind (e : PyExc) (k : α → Except PyExc β) :
    (Except.error e >>= k : Except PyExc β) = Except.error e := rfl

theorem okBind (a : α) (k : α → Except PyExc β) :
    (Except.ok a >>= k : Except PyExc β) = k a := rfl

theorem pureIsOk (a : α) : (pure a : Except PyExc α) = Except.ok a := rfl

theorem errMap (f : α → β) (e : PyExc) :
    (f <$> (Except.error e : Except PyExc α)) = Except.error e := rfl

theorem okMap (f : α → β) (a : α) :
    (f <$> (Except.ok a : Except PyExc α)) = Except.ok (f a) := rfl

theorem strStarts_nil_true (h : List Char) : strStarts h [] = true := by
  cases h <;> rfl

theorem strStarts_nil_iff (n : List Char) : strStarts [] n = true ↔ n = [] := by
  cases n <;> simp [strStarts]

theorem strStarts_append_mono (a b n : List Char) (h : strStarts a n = true) :
    strStarts (a ++ b) n = true := by
  induction a generalizing n with
  | nil =>
    rw [(strStarts_nil_iff n).mp h]
    exact strStarts_nil_true _
  | cons y ys ih =>
    cases n with
    | nil => exact strStarts_nil_true _
    | cons x xs =>
      simp only [strStarts, Bool.and_eq_true] at h
      simp only [List.cons_append, strStarts, Bool.and_eq_true]
      exact ⟨h.1, ih xs h.2⟩

theorem strHasSub_nil (h : List Char) : strHasSub [] h = true := by
  induction h with
  | nil => rfl
  | cons c t ih => simp [strHasSub, strStarts_nil_true]

theorem strHasSub_of_starts (n h : List Char) (hs : strStarts h n = true) :
    strHasSub n h = true := by
  cases h with
  | nil =>
    rw [(strStarts_nil_iff n).mp hs]
    rfl
  | cons c t => simp [strHasSub, hs]

theorem strHasSub_append_left (n a b : List Char)
    (h : strHasSub n a = true) : strHasSub n (a ++ b) = true := by
  induction a with
  | nil =>
    simp only [strHasSub] at h
    rw [(strStarts_nil_iff n).mp h]
    exact strHasSub_nil _
  | cons c t ih =>
    simp only [strHasSub, Bool.or_eq_true] at h
    simp only [List.cons_append, strHasSub, Bool.or_eq_true]
    cases h with
    | inl h1 =>
      exact Or.inl (strStarts_append_mono (c :: t) b n h1)
    | inr h2 => exact Or.inr (ih h2)

theorem strHasSub_append_right (n a b : List Char)
    (h : strHasSub n b = true) : strHasSub n (a ++ b) = true := by
  induction a with
  | nil => simpa using h
  | cons c t ih =>
    simp only [List.cons_append, strHasSub, Bool.or_eq_true]
    exact Or.inr ih

theorem pyContains_append_left (a b p : String)
    (h : pyContains a p = true) : pyContains (a ++ b) p = true := by
  unfold pyContains at h ⊢
  rw [String.data_append]
  exact strHasSub_append_left _ _ _ h

theorem pyContains_append_right (a b p : String)
    (h : pyContains b p = true) : pyContains (a ++ b) p = true := by
  unfold pyContains at h ⊢
  rw [String.data_append]
  exact strHasSub_append_right _ _ _ h

theorem pyStartsWith_append (a b p : String)
    (h : pyStartsWith a p = true) : pyStartsWith (a ++ b) p = true := by
  unfold pyStartsWith at h ⊢
  rw [String.data_append]
  exact strStarts_append_mono _ _ _ h

theorem replaceChar_count (s : String) (c : Char) (hto : c ≠ '_')
    (hfrom : c ≠ '.') :
    (replaceChar '.' '_' s).data.count c = s.data.count c := by
  unfold replaceChar
  show (s.data.map fun x => if x = '.' then '_' else x).count c = s.data.count c
  induction s.data with
  | nil => rfl
  | cons x t ih =>
    simp only [List.map_cons, List.count_cons, ih]
    by_cases hx : x = '.'
    · subst hx
      simp [Ne.symm hto, Ne.symm hfrom]
    · simp [hx]

theorem validate_user_agent_checks (ua : String) :
    validate_user_agent ua = true ↔
      (pyStartsWith ua "Mozilla/5.0" = true ∧
       ua.data.count '(' = ua.data.count ')' ∧
       30 ≤ ua.length ∧
       (pyContains ua "Chrome" = true ∨ pyContains ua "Firefox" = true ∨
         pyContains ua "Safari" = true ∨ pyContains ua "Edg" = true) ∧
       (pyContains ua "Windows" = true ∨ pyContains ua "Mac OS X" = true ∨
         pyContains ua "Linux" = true ∨ pyContains ua "X11" = true)) := by
  unfold validate_user_agent
  by_cases h1 : pyStartsWith ua "Mozilla/5.0" = true <;>
  by_cases h2 : ua.data.count '(' = ua.data.count ')' <;>
  by_cases h3 : ua.length < 30 <;>
  simp_all

theorem filterE_all_ok_true (p : Json → Except PyExc Bool) (l : List Json)
    (h : ∀ x ∈ l, p x = .ok true) : filterE p l = .ok l := by
  induction l with
  | nil => rfl
  | cons x t ih =>
    have hx := h x (by simp)
    have ht := ih fun y hy => h y (by simp [hy])
    simp [filterE, hx, ht, okBind, pureIsOk]

theorem pyChoice_mem (l : List Json) (sel : Nat) (h : l ≠ []) :
    ∃ x, x ∈ l ∧ pyChoice l sel = .ok x := by
  have hlen : 0 < l.length := List.length_pos.mpr h
  have hmod : sel % l.length < l.length := Nat.mod_lt _ hlen
  refine ⟨l.getD (sel % l.length) .null, ?_, by simp [pyChoice, h]⟩
  rw [List.getD_eq_getElem l .null hmod]
  exact List.getElem_mem hmod

theorem bindOkInv (x : Except PyExc α) (f : α → Except PyExc β) (b : β)
    (h : (x >>= f) = .ok b) : ∃ a, x = .ok a ∧ f a = .ok b := by
  cases x with
  | ok a => exact ⟨a, rfl, h⟩
  | error e => simp [errBind] at h

theorem validateOsEntry_shape (bl : String) (j : Nat) (o : Json)
    (h : validateOsEntry bl j o = .ok ()) : osShape o = true := by
  unfold validateOsEntry at h
  cases o with
  | obj fs =>
    cases hn : fs.lookup "name" with
    | none => simp [hn] at h
    | some nv =>
      cases hv : fs.lookup "versions" with
      | none => simp [hn, hv] at h
      | some vv =>
        cases vv with
        | arr vl =>
          by_cases he : vl.isEmpty
          · simp [hn, hv, he] at h
          · simp [osShape, hn, hv, he]
        | null => simp [hn, hv] at h
        | bool b => simp [hn, hv] at h
        | num n => simp [hn, hv] at h
        | str s => simp [hn, hv] at h
        | obj fs2 => simp [hn, hv] at h
  | null => simp at h
  | bool b => simp at h
  | num n => simp at h
  | str s => simp at h
  | arr l => simp at h

theorem validateOsList_shape (bl : String) (l : List Json) :
    ∀ j, validateOsList bl j l = .ok () → l.all osShape = true := by
  induction l with
  | nil => intro j _; rfl
  | cons o t ih =>
    intro j h
    unfold validateOsList at h
    obtain ⟨a, ha, hb⟩ := bindOkInv _ _ _ h
    cases a
    simp only [List.all_cons, Bool.and_eq_true]
    exact ⟨validateOsEntry_shape _ _ _ ha, ih (j + 1) hb⟩

theorem validateBrowser_shape (i : Nat) (b : Json)
    (h : validateBrowser i b = .ok ()) : browserShape b = true := by
  unfold validateBrowser at h
  cases b with
  | obj fs =>
    cases hn : fs.lookup "name" with
    | none => simp [hn] at h
    | some nv =>
      cases hv : fs.lookup "versions" with
      | none => simp [hn, hv] at h
      | some vv =>
        cases ho : fs.lookup "os" with
        | none => simp [hn, hv, ho] at h
        | some ov =>
          cases vv with
          | arr vl =>
            by_cases hve : vl.isEmpty
            · simp [hn, hv, ho, hve] at h
            · cases ov with
              | arr ol =>
                by_cases hoe : ol.isEmpty
                · simp [hn, hv, ho, hve, hoe] at h
                · simp only [hn, hv, ho, hve, hoe] at h
                  simp only [Option.isNone_some, Bool.false_eq_true,
                    if_false, Bool.not_false, if_true] at h
                  simp [browserShape, hn, hv, ho, hve, hoe,
                    validateOsList_shape (browserLabel i fs) ol 0 (by simpa using h)]
              | null => simp [hn, hv, ho, hve] at h
              | bool b2 => simp [hn, hv, ho, hve] at h
              | num n2 => simp [hn, hv, ho, hve] at h
              | str s2 => simp [hn, hv, ho, hve] at h
              | obj fs2 => simp [hn, hv, ho, hve] at h
          | null => simp [hn, hv, ho] at h
          | bool b2 => simp [hn, hv, ho] at h
          | num n2 => simp [hn, hv, ho] at h
          | str s2 => simp [hn, hv, ho] at h
          | obj fs2 => simp [hn, hv, ho] at h
  | null => simp at h
  | bool b2 => simp at h
  | num n2 => simp at h
  | str s2 => simp at h
  | arr l2 => simp at h

theorem validateBrowsers_shape (l : List Json) :
    ∀ i, validateBrowsers i l = .ok () → l.all browserShape = true := by
  induction l with
  | nil => intro i _; rfl
  | cons b t ih =>
    intro i h
    unfold validateBrowsers at h
    obtain ⟨a, ha, hb⟩ := bindOkInv _ _ _ h
    cases a
    simp only [List.all_cons, Bool.and_eq_true]
    exact ⟨validateBrowser_shape _ _ ha, ih (i + 1) hb⟩

theorem validate_catShape (d : Json)
    (h : validate_json_structure d = .ok ()) : catShape d = true := by
  unfold validate_json_structure at h
  cases d with
  | obj fields =>
    cases hb : fields.lookup "browsers" with
    | none => simp [hb] at h
    | some bj =>
      cases bj with
      | arr l =>
        by_cases he : l.isEmpty
        · simp [hb, he] at h
        · simp only [hb, he, Bool.false_eq_true, if_false] at h
          simp [catShape, hb, he, validateBrowsers_shape l 0 h]
      | null => simp [hb] at h
      | bool b2 => simp [hb] at h
      | num n2 => simp [hb] at h
      | str s2 => simp [hb] at h
      | obj fs2 => simp [hb] at h
  | null => simp at h
  | bool b2 => simp at h
  | num n2 => simp at h
  | str s2 => simp at h
  | arr l2 => simp at h

theorem get_os_string_props (osn osv : String)
    (hosn : osn = "Windows" ∨ osn = "Mac OS" ∨ osn = "Linux")
    (h1 : osv.data.count '(' = 0) (h2 : osv.data.count ')' = 0) :
    (get_os_string osn osv).data.count '(' = 0 ∧
    (get_os_string osn osv).data.count ')' = 0 ∧
    (pyContains (get_os_string osn osv) "Windows" = true ∨
     pyContains (get_os_string osn osv) "Mac OS X" = true ∨
     pyContains (get_os_string osn osv) "Linux" = true ∨
     pyContains (get_os_string osn osv) "X11" = true) := by
  rcases hosn with h | h | h <;> subst h
  · rw [show get_os_string "Windows" osv =
        ("Windows NT " ++ osv) ++ "; Win64; x64" from rfl]
    refine ⟨?_, ?_, Or.inl ?_⟩
    · simp only [String.data_append, List.count_append, h1]; decide
    · simp only [String.data_append, List.count_append, h2]; decide
    · exact pyContains_append_left _ _ _
        (pyContains_append_left _ _ _ (by decide))
  · rw [show get_os_string "Mac OS" osv =
        (if osv.data.contains '_' then "Macintosh; Intel Mac OS X " ++ osv
         else "Macintosh; Intel Mac OS X " ++ replaceChar '.' '_' osv) from rfl]
    by_cases hc : osv.data.contains '_'
    · rw [if_pos hc]
      refine ⟨?_, ?_, Or.inr (Or.inl ?_)⟩
      · simp only [String.data_append, List.count_append, h1]; decide
      · simp only [String.data_append, List.count_append, h2]; decide
      · exact pyContains_append_left _ _ _ (by decide)
    · rw [if_neg hc]
      refine ⟨?_, ?_, Or.inr (Or.inl ?_)⟩
      · simp only [String.data_append, List.count_append,
          replaceChar_count osv '(' (by decide) (by decide), h1]
        decide
      · simp only [String.data_append, List.count_append,
          replaceChar_count osv ')' (by decide) (by decide), h2]
        decide
      · exact pyContains_append_left _ _ _ (by decide)
  · rw [show get_os_string "Linux" osv = "X11; Linux " ++ osv from rfl]
    refine ⟨?_, ?_, Or.inr (Or.inr (Or.inl ?_))⟩
    · simp only [String.data_append, List.count_append, h1]; decide
    · simp only [String.data_append, List.count_append, h2]; decide
    · exact pyContains_append_left _ _ _ (by decide)

theorem buildUserAgent_valid (n : String)
    (hn : n = "Chrome" ∨ n = "Firefox" ∨ n = "Safari" ∨ n = "Edge")
    (osStr bv : String)
    (ho1 : osStr.data.count '(' = 0) (ho2 : osStr.data.count ')' = 0)
    (hop : pyContains osStr "Windows" = true ∨ pyContains osStr "Mac OS X" = true ∨
           pyContains osStr "Linux" = true ∨ pyContains osStr "X11" = true)
    (hb1 : bv.data.count '(' = 0) (hb2 : bv.data.count ')' = 0) :
    validate_user_agent (buildUserAgent (.str n) osStr (.str bv)) = true := by
  rcases hn with h | h | h | h <;> subst h
  · rw [show buildUserAgent (.str "Chrome") osStr (.str bv) =
        ((("Mozilla/5.0 (" ++ osStr) ++
          ") AppleWebKit/537.36 (KHTML, like Gecko) Chrome/") ++ bv) ++
          " Safari/537.36" from rfl]
    refine (validate_user_agent_checks _).mpr ⟨?_, ?_, ?_, Or.inl ?_, ?_⟩
    · exact pyStartsWith_append _ _ _ (pyStartsWith_append _ _ _
        (pyStartsWith_append _ _ _ (pyStartsWith_append _ _ _ (by decide))))
    · simp only [String.data_append, List.count_append, ho1, ho2, hb1, hb2]
      decide
    · simp only [String.length_append]
      have hx : 30 ≤ (") AppleWebKit/537.36 (KHTML, like Gecko) Chrome/" :
          String).length := by decide
      omega
    · exact pyContains_append_left _ _ _ (pyContains_append_left _ _ _
        (pyContains_append_right _ _ _ (by decide)))
    · rcases hop with hp | hp | hp | hp
      · exact Or.inl (pyContains_append_left _ _ _ (pyContains_append_left _ _ _
          (pyContains_append_left _ _ _ (pyContains_append_right _ _ _ hp))))
      · exact Or.inr (Or.inl (pyContains_append_left _ _ _
          (pyContains_append_left _ _ _
          (pyContains_append_left _ _ _ (pyContains_append_right _ _ _ hp)))))
      · exact Or.inr (Or.inr (Or.inl (pyContains_append_left _ _ _
          (pyContains_append_left _ _ _
          (pyContains_append_left _ _ _ (pyContains_append_right _ _ _ hp))))))
      · exact Or.inr (Or.inr (Or.inr (pyContains_append_left _ _ _
          (pyContains_append_left _ _ _
          (pyContains_append_left _ _ _ (pyContains_append_right _ _ _ hp))))))
  · rw [show buildUserAgent (.str "Firefox") osStr (.str bv) =
        (((("Mozilla/5.0 (" ++ osStr) ++ "; rv:") ++ bv) ++
          ") Gecko/20100101 Firefox/") ++ bv from rfl]
    refine (validate_user_agent_checks _).mpr ⟨?_, ?_, ?_, Or.inr (Or.inl ?_), ?_⟩
    · exact pyStartsWith_append _ _ _ (pyStartsWith_append _ _ _
        (pyStartsWith_append _ _ _ (pyStartsWith_append _ _ _
        (pyStartsWith_append _ _ _ (by decide)))))
    · simp only [String.data_append, List.count_append, ho1, ho2, hb1, hb2]
      decide
    · simp only [String.length_append]
      have hx : (") Gecko/20100101 Firefox/" : String).length = 25 := by decide
      have hy : ("Mozilla/5.0 (" : String).length = 13 := by decide
      omega
    · exact pyContains_append_left _ _ _
        (pyContains_append_right _ _ _ (by decide))
    · rcases hop with hp | hp | hp | hp
      · exact Or.inl (pyContains_append_left _ _ _ (pyContains_append_left _ _ _
          (pyContains_append_left _ _ _ (pyContains_append_left _ _ _
          (pyContains_append_right _ _ _ hp)))))
      · exact Or.inr (Or.inl (pyContains_append_left _ _ _
          (pyContains_append_left _ _ _ (pyContains_append_left _ _ _
          (pyContains_append_left _ _ _ (pyContains_append_right _ _ _ hp))))))
      · exact Or.inr (Or.inr (Or.inl (pyContains_append_left _ _ _
          (pyContains_append_left _ _ _ (pyContains_append_left _ _ _
          (pyContains_append_left _ _ _ (pyContains_append_right _ _ _ hp)))))))
      · exact Or.inr (Or.inr (Or.inr (pyContains_append_left _ _ _
          (pyContains_append_left _ _ _ (pyContains_append_left _ _ _
          (pyContains_append_left _ _ _ (pyContains_append_right _ _ _ hp)))))))
  · rw [show buildUserAgent (.str "Safari") osStr (.str bv) =
        ((("Mozilla/5.0 (" ++ osStr) ++
          ") AppleWebKit/605.1.15 (KHTML, like Gecko) Version/") ++ bv) ++
          " Safari/605.1.15" from rfl]
    refine (validate_user_agent_checks _).mpr
      ⟨?_, ?_, ?_, Or.inr (Or.inr (Or.inl ?_)), ?_⟩
    · exact pyStartsWith_append _ _ _ (pyStartsWith_append _ _ _
        (pyStartsWith_append _ _ _ (pyStartsWith_append _ _ _ (by decide))))
    · simp only [String.data_append, List.count_append, ho1, ho2, hb1, hb2]
      decide
    · simp only [String.length_append]
      have hx : 30 ≤ (") AppleWebKit/605.1.15 (KHTML, like Gecko) Version/" :
          String).length := by decide
      omega
    · exact pyContains_append_right _ _ _ (by decide)
    · rcases hop with hp | hp | hp | hp
      · exact Or.inl (pyContains_append_left _ _ _ (pyContains_append_left _ _ _
          (pyContains_append_left _ _ _ (pyContains_append_right _ _ _ hp))))
      · exact Or.inr (Or.inl (pyContains_append_left _ _ _
          (pyContains_append_left _ _ _
          (pyContains_append_left _ _ _ (pyContains_append_right _ _ _ hp)))))
      · exact Or.inr (Or.inr (Or.inl (pyContains_append_left _ _ _
          (pyContains_append_left _ _ _
          (pyContains_append_left _ _ _ (pyContains_append_right _ _ _ hp))))))
      · exact Or.inr (Or.inr (Or.inr (pyContains_append_left _ _ _
          (pyContains_append_left _ _ _
          (pyContains_append_left _ _ _ (pyContains_append_right _ _ _ hp))))))
  · rw [show buildUserAgent (.str "Edge") osStr (.str bv) =
        (("Mozilla/5.0 (" ++ osStr) ++
          ") AppleWebKit/537.36 (KHTML, like Gecko) Edg/") ++ bv from rfl]
    refine (validate_user_agent_checks _).mpr
      ⟨?_, ?_, ?_, Or.inr (Or.inr (Or.inr ?_)), ?_⟩
    · exact pyStartsWith_append _ _ _ (pyStartsWith_append _ _ _
        (pyStartsWith_append _ _ _ (by decide)))
    · simp only [String.data_append, List.count_append, ho1, ho2, hb1, hb2]
      decide
    · simp only [String.length_append]
      have hx : 30 ≤ (") AppleWebKit/537.36 (KHTML, like Gecko) Edg/" :
          String).length := by decide
      omega
    · exact pyContains_append_left _ _ _
        (pyContains_append_right _ _ _ (by decide))
    · rcases hop with hp | hp | hp | hp
      · exact Or.inl (pyContains_append_left _ _ _
          (pyContains_append_left _ _ _ (pyContains_append_right _ _ _ hp)))
      · exact Or.inr (Or.inl (pyContains_append_left _ _ _
          (pyContains_append_left _ _ _ (pyContains_append_right _ _ _ hp))))
      · exact Or.inr (Or.inr (Or.inl (pyContains_append_left _ _ _
          (pyContains_append_left _ _ _ (pyContains_append_right _ _ _ hp)))))
      · exact Or.inr (Or.inr (Or.inr (pyContains_append_left _ _ _
          (pyContains_append_left _ _ _ (pyContains_append_right _ _ _ hp)))))

theorem parenFreeVersion_dest (v : Json) (h : parenFreeVersion v = true) :
    ∃ s, v = .str s ∧ s.data.count '(' = 0 ∧ s.data.count ')' = 0 := by
  cases v with
  | str s =>
    simp only [parenFreeVersion, Bool.and_eq_true, Bool.not_eq_true'] at h
    refine ⟨s, rfl, ?_, ?_⟩
    · rw [List.count_eq_zero]
      have h1 := h.1
      simp at h1
      exact h1
    · rw [List.count_eq_zero]
      have h2 := h.2
      simp at h2
      exact h2
  | null => simp [parenFreeVersion] at h
  | bool b => simp [parenFreeVersion] at h
  | num n => simp [parenFreeVersion] at h
  | arr l => simp [parenFreeVersion] at h
  | obj fs => simp [parenFreeVersion] at h

theorem goodOsEntry_dest (o : Json) (hg : goodOsEntry o = true)
    (hs : osShape o = true) :
    ∃ ofs osn ovl, o = .obj ofs ∧ ofs.lookup "name" = some (.str osn) ∧
      (osn = "Windows" ∨ osn = "Mac OS" ∨ osn = "Linux") ∧
      ofs.lookup "versions" = some (.arr ovl) ∧ ovl ≠ [] ∧
      ovl.all parenFreeVersion = true := by
  cases o with
  | obj ofs =>
    cases hn : ofs.lookup "name" with
    | none => simp [goodOsEntry, jLookup, hn] at hg
    | some nv =>
      cases hv : ofs.lookup "versions" with
      | none => simp [goodOsEntry, jLookup, hn, hv] at hg
      | some vv =>
        cases nv <;> cases vv <;>
          simp only [goodOsEntry, jLookup, hn, hv] at hg <;>
          try exact absurd hg Bool.false_ne_true
        case str.arr osn ovl =>
          rw [Bool.and_eq_true] at hg
          obtain ⟨hgn, hgall⟩ := hg
          rw [Bool.or_eq_true, Bool.or_eq_true] at hgn
          simp only [beq_iff_eq] at hgn
          have hgn2 : osn = "Windows" ∨ osn = "Mac OS" ∨ osn = "Linux" := by
            tauto
          simp only [osShape, hn, hv, Option.isSome_some, Bool.true_and,
            Bool.not_eq_true'] at hs
          have hne : ovl ≠ [] := by
            simp [List.isEmpty_iff] at hs
            exact hs
          exact ⟨ofs, osn, ovl, rfl, hn, hgn2, hv, hne, hgall⟩
  | null => simp [goodOsEntry, jLookup] at hg
  | bool b => simp [goodOsEntry, jLookup] at hg
  | num n => simp [goodOsEntry, jLookup] at hg
  | str s => simp [goodOsEntry, jLookup] at hg
  | arr l => simp [goodOsEntry, jLookup] at hg

theorem goodBrowser_dest (b : Json) (hg : goodBrowser b = true)
    (hs : browserShape b = true) :
    ∃ bfs n vl ol, b = .obj bfs ∧ bfs.lookup "name" = some (.str n) ∧
      (n = "Chrome" ∨ n = "Firefox" ∨ n = "Safari" ∨ n = "Edge") ∧
      bfs.lookup "versions" = some (.arr vl) ∧ vl ≠ [] ∧
      vl.all parenFreeVersion = true ∧
      bfs.lookup "os" = some (.arr ol) ∧ ol ≠ [] ∧
      ol.all osShape = true ∧ ol.all goodOsEntry = true := by
  cases b with
  | obj bfs =>
    cases hn : bfs.lookup "name" with
    | none => simp [goodBrowser, jLookup, hn] at hg
    | some nv =>
      cases hv : bfs.lookup "versions" with
      | none => simp [goodBrowser, jLookup, hn, hv] at hg
      | some vv =>
        cases ho : bfs.lookup "os" with
        | none => simp [goodBrowser, jLookup, hn, hv, ho] at hg
        | some ov =>
          cases nv <;> cases vv <;> cases ov <;>
            simp only [goodBrowser, jLookup, hn, hv, ho] at hg <;>
            try exact absurd hg Bool.false_ne_true
          case str.arr.arr n vl ol =>
            rw [Bool.and_eq_true, Bool.and_eq_true] at hg
            obtain ⟨⟨hgn, hgvl⟩, hgol⟩ := hg
            rw [Bool.or_eq_true, Bool.or_eq_true, Bool.or_eq_true] at hgn
            simp only [beq_iff_eq] at hgn
            have hgn2 : n = "Chrome" ∨ n = "Firefox" ∨ n = "Safari" ∨
                n = "Edge" := by tauto
            simp only [browserShape, hn, hv, ho, Option.isSome_some,
              Bool.true_and, Bool.and_eq_true, Bool.not_eq_true'] at hs
            have hvne : vl ≠ [] := by
              have h1 := hs.1
              simp [List.isEmpty_iff] at h1
              exact h1
            have hone : ol ≠ [] := by
              have h2 := hs.2.1
              simp [List.isEmpty_iff] at h2
              exact h2
            exact ⟨bfs, n, vl, ol, rfl, hn, hgn2, hv, hvne, hgvl, ho, hone,
              hs.2.2, hgol⟩
  | null => simp [goodBrowser, jLookup] at hg
  | bool b2 => simp [goodBrowser, jLookup] at hg
  | num n => simp [goodBrowser, jLookup] at hg
  | str s => simp [goodBrowser, jLookup] at hg
  | arr l => simp [goodBrowser, jLookup] at hg

theorem feasBrowser_of_shape (b : Json) (h : browserShape b = true) :
    feasibleBrowserCheck b = .ok true := by
  cases b with
  | obj fs =>
    cases hv : fs.lookup "versions" with
    | none => simp [browserShape, hv] at h
    | some vv =>
      cases ho : fs.lookup "os" with
      | none => simp [browserShape, hv, ho] at h
      | some ov =>
        cases vv <;> cases ov <;> simp [browserShape, hv, ho] at h
        case arr.arr vl ol =>
          have hvl : vl.isEmpty = false := by
            simp only [List.isEmpty_eq_false]
            tauto
          have hol : ol.isEmpty = false := by
            simp only [List.isEmpty_eq_false]
            tauto
          simp [feasibleBrowserCheck, Json.pyGet, hv, ho, Json.truthy,
            hvl, hol, okBind, pureIsOk]
  | null => simp [browserShape] at h
  | bool b2 => simp [browserShape] at h
  | num n => simp [browserShape] at h
  | str s => simp [browserShape] at h
  | arr l => simp [browserShape] at h

theorem feasOs_of_shape (o : Json) (h : osShape o = true) :
    feasibleOsCheck o = .ok true := by
  cases o with
  | obj fs =>
    cases hv : fs.lookup "versions" with
    | none => simp [osShape, hv] at h
    | some vv =>
      cases vv <;> simp [osShape, hv] at h
      case arr vl =>
        have hvl : vl.isEmpty = false := by
          simp only [List.isEmpty_eq_false]
          tauto
        simp [feasibleOsCheck, Json.pyGet, hv, Json.truthy, hvl,
          okBind, pureIsOk]
  | null => simp [osShape] at h
  | bool b2 => simp [osShape] at h
  | num n => simp [osShape] at h
  | str s => simp [osShape] at h
  | arr l => simp [osShape] at h

/-- Claim C1 (amended): for every catalog that passes load-time validation
*and* whose browser names are all among Chrome/Firefox/Safari/Edge, whose OS
names are all among Windows/"Mac OS"/Linux, and whose version strings hold no
parenthesis, `generate_user_agent` returns (for every possible random choice)
a string that starts with "Mozilla/5.0" and that `validate_user_agent`
accepts; the invalid-generated-output branch is not reached.  (The original
claim, without these restrictions, is refuted by the counterexample: an
unrecognized OS or browser name fails the substring checks.) -/
theorem generate_recognized_ok (data : Json) (c : Choices)
    (hv : validate_json_structure data = .ok ())
    (hg : (catBrowsers data).all goodBrowser = true) :
    ∃ s, generate_user_agent data c = .ok s ∧
      pyStartsWith s "Mozilla/5.0" = true ∧
      validate_user_agent s = true := by
  have hshape := validate_catShape data hv
  cases data with
  | obj fields =>
    cases hb : fields.lookup "browsers" with
    | none => simp [catShape, hb] at hshape
    | some bj =>
      cases bj with
      | arr l =>
        rw [show catShape (Json.obj fields) =
            (match fields.lookup "browsers" with
              | some (Json.arr l) => !l.isEmpty && l.all browserShape
              | _ => false) from rfl, hb, Bool.and_eq_true] at hshape
        obtain ⟨hlne0, hall⟩ := hshape
        have hle : l.isEmpty = false := by
          simpa using hlne0
        have hlne : l ≠ [] := by
          simpa [List.isEmpty_eq_false] using hle
        have hgl : l.all goodBrowser = true := by
          simp only [catBrowsers, jLookup, hb] at hg
          exact hg
        have hfne : fields ≠ [] := by rintro rfl; simp at hb
        have hfe : fields.isEmpty = false := by
          simpa [List.isEmpty_eq_false] using hfne
        have hshapes : ∀ b ∈ l, browserShape b = true := by
          rw [List.all_eq_true] at hall
          intro b hbm
          simpa using hall b hbm
        have hgoods : ∀ b ∈ l, goodBrowser b = true := by
          rw [List.all_eq_true] at hgl
          intro b hbm
          simpa using hgl b hbm
        have hfeas : ∀ b ∈ l, feasibleBrowserCheck b = .ok true :=
          fun b hbm => feasBrowser_of_shape b (hshapes b hbm)
        have hfilter := filterE_all_ok_true _ l hfeas
        obtain ⟨b, hbm, hbchoice⟩ := pyChoice_mem l c.browserSel hlne
        obtain ⟨bfs, n, vl, ol, rfl, hname, hnset, hvers, hvlne, hvlpf, hos,
            holne, holshape, holgood⟩ :=
          goodBrowser_dest b (hgoods b hbm) (hshapes b hbm)
        have hole : ol.isEmpty = false := by
          simpa [List.isEmpty_eq_false] using holne
        obtain ⟨bvj, hbvm, hbvchoice⟩ :=
          pyChoice_mem vl c.browserVersionSel hvlne
        obtain ⟨bvs, rfl, hbv1, hbv2⟩ := parenFreeVersion_dest bvj (by
          rw [List.all_eq_true] at hvlpf
          simpa using hvlpf bvj hbvm)
        have hosfeas : ∀ o ∈ ol, feasibleOsCheck o = .ok true := by
          rw [List.all_eq_true] at holshape
          exact fun o hom => feasOs_of_shape o (by simpa using holshape o hom)
        have hosfilter := filterE_all_ok_true _ ol hosfeas
        obtain ⟨o, hom, hochoice⟩ := pyChoice_mem ol c.osSel holne
        obtain ⟨ofs, osn, ovl, rfl, hosname, hosset, hosvers, hovlne, hovlpf⟩ :=
          goodOsEntry_dest o
            (by rw [List.all_eq_true] at holgood; simpa using holgood o hom)
            (by rw [List.all_eq_true] at holshape; simpa using holshape o hom)
        obtain ⟨ovj, hovm, hovchoice⟩ := pyChoice_mem ovl c.osVersionSel hovlne
        obtain ⟨ovs, rfl, hov1, hov2⟩ := parenFreeVersion_dest ovj (by
          rw [List.all_eq_true] at hovlpf
          simpa using hovlpf ovj hovm)
        obtain ⟨hc1, hc2, hcp⟩ := get_os_string_props osn ovs hosset hov1 hov2
        have hval := buildUserAgent_valid n hnset (get_os_string osn ovs) bvs
          hc1 hc2 hcp hbv1 hbv2
        refine ⟨buildUserAgent (.str n) (get_os_string osn ovs) (.str bvs),
          ?_, ?_, hval⟩
        · unfold generate_user_agent
          have hraw : generate_raw (.obj fields) c =
              .ok (buildUserAgent (.str n) (get_os_string osn ovs)
                (.str bvs)) := by
            unfold generate_raw
            simp [Json.truthy, Json.isObj, jLookup, hb, hfe, hle, hole,
              Json.pyIndex, Json.asList, hfilter, hbchoice, hname, hvers,
              hbvchoice, hos, hosfilter, hochoice, hosname, hosvers,
              hovchoice, get_os_string_json, hval, okBind, errBind,
              pureIsOk, errMap, okMap, throw, throwThe, MonadExceptOf.throw]
          rw [hraw]
          rfl
        · exact ((validate_user_agent_checks _).mp hval).1
      | null => simp [catShape, hb] at hshape
      | bool b2 => simp [catShape, hb] at hshape
      | num n2 => simp [catShape, hb] at hshape
      | str s2 => simp [catShape, hb] at hshape
      | obj fs2 => simp [catShape, hb] at hshape
  | null => simp [catShape] at hshape
  | bool b2 => simp [catShape] at hshape
  | num n2 => simp [catShape] at hshape
  | str s2 => simp [catShape] at hshape
  | arr l2 => simp [catShape] at hshape

theorem pyChoice_singleton (x : Json) (sel : Nat) : pyChoice [x] sel = .ok x := by
  simp [pyChoice, Nat.mod_one]

theorem wrapLoad_error (r : Except PyExc Json) (e : PyExc)
    (h : wrapLoad r = .error e) : ∃ u, e = PyExc.ua u := by
  cases r with
  | ok d => simp [wrapLoad] at h
  | error e2 => cases e2 <;> simp [wrapLoad, PyExc.isUA] at h <;> exact ⟨_, h.symm⟩

theorem wrapGenerate_error (r : Except PyExc String) (e : PyExc)
    (h : wrapGenerate r = .error e) : ∃ u, e = PyExc.ua u := by
  cases r with
  | ok d => simp [wrapGenerate] at h
  | error e2 => cases e2 <;> simp [wrapGenerate, PyExc.isUA] at h <;> exact ⟨_, h.symm⟩

theorem wrapLoad_nonua (ex : PyExc) (hua : ex.isUA = false) :
    wrapLoad (.error ex) =
      .error (.ua (.base ("Error loading user agents: " ++ ex.message))) := by
  simp [wrapLoad, hua]

theorem wrapGenerate_nonua (ex : PyExc) (hua : ex.isUA = false) :
    wrapGenerate (.error ex) =
      .error (.ua (.base ("Error generating user agent: " ++ ex.message))) := by
  simp [wrapGenerate, hua]

/-- Claim C1, counterexample: the catalog `androidCatalog` passes
`validate_json_structure`, yet generation reaches the invalid-generated-output
branch, because the OS string "Android 13" matches none of the OS patterns of
`validate_user_agent`.  So the claim's universal statement over all
load-validated catalogs is false. -/
theorem c1_generate_invalid_counterexample :
    validate_json_structure androidCatalog = .ok () ∧
    generate_user_agent androidCatalog ⟨0, 0, 0, 0⟩ =
      .error (.ua (.invalidUserAgent
        "Generated invalid user agent: Mozilla/5.0 (Android 13) AppleWebKit/537.36 (KHTML, like Gecko) Chrome/116.0 Safari/537.36")) :=
  ⟨rfl, rfl⟩

/-- Claim C1, witness for the amended theorem. -/
theorem generate_recognized_ok_witness :
    ∃ s, generate_user_agent chromeWindowsCatalog ⟨0, 0, 0, 0⟩ = .ok s ∧
      pyStartsWith s "Mozilla/5.0" = true ∧ validate_user_agent s = true :=
  generate_recognized_ok chromeWindowsCatalog ⟨0, 0, 0, 0⟩ rfl rfl

/-- Claim C2, counterexample: Mac OS version "10.15" formats to
"Macintosh; Intel Mac OS X 10_15", not to "... 10_15_7" as the claim
states. -/
theorem c2_macos_version_counterexample :
    get_os_string "Mac OS" "10.15" ≠ "Macintosh; Intel Mac OS X 10_15_7" := by
  decide

/-- Claim C2 (amended): Mac OS version "10_15_7" formats to
"Macintosh; Intel Mac OS X 10_15_7", and "10.15" formats to
"Macintosh; Intel Mac OS X 10_15". -/
theorem c2_macos_version_amended :
    get_os_string "Mac OS" "10_15_7" = "Macintosh; Intel Mac OS X 10_15_7" ∧
    get_os_string "Mac OS" "10.15" = "Macintosh; Intel Mac OS X 10_15" :=
  ⟨rfl, rfl⟩

/-- Claim C3, counterexample: with an existing but unreadable file, the error
observed by the caller is the *base* `UserAgentError` (the builtin
`PermissionError` is caught and wrapped), not a distinct permission-denied
refinement — the `UAError` taxonomy of the source has no such refinement. -/
theorem c3_permission_counterexample :
    load_user_agents "agents.json" ⟨true, false, some chromeWindowsCatalog⟩ =
      .error (.ua (.base
        "Error loading user agents: Permission denied: Cannot read agents.json")) :=
  rfl

/-- Claim C3 (amended): when the file exists but is not readable, loading
fails with the generic base user-agent error wrapping the permission
message. -/
theorem load_unreadable_wrapped_base (json_file : String) (fs : FileState)
    (hex : fs.fsExists = true) (hr : fs.readable = false) :
    load_user_agents json_file fs = .error (.ua (.base
      ("Error loading user agents: Permission denied: Cannot read " ++
        json_file))) := by
  unfold load_user_agents load_raw
  simp [hex, hr, wrapLoad, PyExc.isUA, PyExc.message,
    throw, throwThe, MonadExceptOf.throw, errBind, okBind, pureIsOk,
    errMap, okMap]
  rw [← String.append_assoc]
  rfl

/-- Claim C3, witness for the amended theorem. -/
theorem load_unreadable_wrapped_base_witness :
    load_user_agents "f" ⟨true, false, some chromeWindowsCatalog⟩ =
      .error (.ua (.base
        ("Error loading user agents: Permission denied: Cannot read " ++
          "f"))) :=
  load_unreadable_wrapped_base "f" ⟨true, false, some chromeWindowsCatalog⟩
    rfl rfl

/-- Claim C4: for the selection Chrome/116.0 on Windows/10.0 (the
`chromeWindowsCatalog` makes this the only possible selection, whatever the
random choices), `generate_user_agent` produces exactly the spec's string. -/
theorem generate_chrome_windows_exact (c : Choices) :
    generate_user_agent chromeWindowsCatalog c =
      .ok "Mozilla/5.0 (Windows NT 10.0; Win64; x64) AppleWebKit/537.36 (KHTML, like Gecko) Chrome/116.0 Safari/537.36" := by
  obtain ⟨s1, s2, s3, s4⟩ := c
  unfold generate_user_agent generate_raw chromeWindowsCatalog
  simp [pyChoice_singleton, Json.truthy, Json.isObj, jLookup,
    Json.pyIndex, Json.asList, filterE, feasibleBrowserCheck, feasibleOsCheck,
    Json.pyGet, okBind, errBind, pureIsOk, get_os_string_json, get_os_string,
    buildUserAgent, Json.eqStr, Json.pyStr, wrapGenerate, List.lookup,
    Option.getD, List.isEmpty, validate_user_agent, pyStartsWith, pyContains,
    strStarts, strHasSub, replaceChar, List.count,
    throw, throwThe, MonadExceptOf.throw]
  rfl

/-- Claim C5, counterexample: for Mac OS version "1.2_3" the code returns the
version verbatim, so the dot is *not* normalized to an underscore as the
spec's "normalizes version separators to underscore form" requires. -/
theorem c5_normalize_counterexample :
    get_os_string "Mac OS" "1.2_3" ≠
      "Macintosh; Intel Mac OS X " ++ specNormalizeSeparators "1.2_3" := by
  decide

/-- Claim C5 (amended): per-family formatting for every string input, with
the Mac OS case corrected — the version is kept verbatim when it already
contains an underscore, and has dots replaced by underscores otherwise. -/
theorem get_os_string_cases (os_name os_version : String) :
    (os_name = "Windows" →
      get_os_string os_name os_version =
        "Windows NT " ++ os_version ++ "; Win64; x64") ∧
    (os_name = "Mac OS" →
      get_os_string os_name os_version = "Macintosh; Intel Mac OS X " ++
        (if os_version.data.contains '_' then os_version
         else replaceChar '.' '_' os_version)) ∧
    (os_name = "Linux" →
      get_os_string os_name os_version = "X11; Linux " ++ os_version) ∧
    (os_name ≠ "Windows" → os_name ≠ "Mac OS" → os_name ≠ "Linux" →
      get_os_string os_name os_version = os_name ++ " " ++ os_version) := by
  refine ⟨?_, ?_, ?_, ?_⟩
  · rintro rfl; rfl
  · rintro rfl
    rw [show get_os_string "Mac OS" os_version =
        (if os_version.data.contains '_' then
          "Macintosh; Intel Mac OS X " ++ os_version
         else "Macintosh; Intel Mac OS X " ++ replaceChar '.' '_' os_version)
      from rfl]
    by_cases hc : '_' ∈ os_version.data <;> simp [hc]
  · rintro rfl; rfl
  · intro h1 h2 h3
    unfold get_os_string
    rw [if_neg h1, if_neg h2, if_neg h3]

/-- Claim C5, witness for the amended theorem: one instance per family. -/
theorem get_os_string_cases_witness :
    get_os_string "Windows" "10.0" = "Windows NT " ++ "10.0" ++ "; Win64; x64" ∧
    get_os_string "Mac OS" "10.15" = "Macintosh; Intel Mac OS X " ++
      (if ("10.15" : String).data.contains '_' then "10.15"
       else replaceChar '.' '_' "10.15") ∧
    get_os_string "Linux" "6.1" = "X11; Linux " ++ "6.1" ∧
    get_os_string "Android" "13" = "Android" ++ " " ++ "13" :=
  ⟨(get_os_string_cases "Windows" "10.0").1 rfl,
   (get_os_string_cases "Mac OS" "10.15").2.1 rfl,
   (get_os_string_cases "Linux" "6.1").2.2.1 rfl,
   (get_os_string_cases "Android" "13").2.2.2 (by decide) (by decide)
     (by decide)⟩

/-- Claim C6: `validate_user_agent` returns `True` exactly when all five
checks hold: the "Mozilla/5.0" head, equal parenthesis counts, length at
least 30, one of the four browser substrings, and one of the four OS
substrings. -/
theorem validate_user_agent_five_checks (ua : String) :
    validate_user_agent ua = true ↔
      (pyStartsWith ua "Mozilla/5.0" = true ∧
       ua.data.count '(' = ua.data.count ')' ∧
       30 ≤ ua.length ∧
       (pyContains ua "Chrome" = true ∨ pyContains ua "Firefox" = true ∨
         pyContains ua "Safari" = true ∨ pyContains ua "Edg" = true) ∧
       (pyContains ua "Windows" = true ∨ pyContains ua "Mac OS X" = true ∨
         pyContains ua "Linux" = true ∨ pyContains ua "X11" = true)) :=
  validate_user_agent_checks ua

/-- Claim C7: a catalog whose single browser has an empty `os` list makes
`generate_user_agent` fail with `EmptyDataError` (the browser is filtered
out as infeasible, leaving no feasible browsers). -/
theorem generate_empty_os_fails_emptyData (fields bfields :
      List (String × Json)) (c : Choices)
    (hb : fields.lookup "browsers" = some (.arr [.obj bfields]))
    (hos : bfields.lookup "os" = some (.arr [])) :
    generate_user_agent (.obj fields) c =
      .error (.ua (.emptyData "No feasible browser data available")) := by
  have hne : fields ≠ [] := by rintro rfl; simp at hb
  have hraw : generate_raw (.obj fields) c =
      .error (.ua (.emptyData "No feasible browser data available")) := by
    simp [generate_raw, Json.truthy, Json.isObj, jLookup, hb, hos, hne,
      Json.pyIndex, Json.asList, filterE, feasibleBrowserCheck, Json.pyGet,
      throw, throwThe, MonadExceptOf.throw, errBind, okBind, pureIsOk,
      errMap, okMap]
  unfold generate_user_agent
  rw [hraw]
  rfl

/-- Claim C7, witness. -/
theorem generate_empty_os_fails_emptyData_witness :
    generate_user_agent emptyOsCatalog ⟨0, 0, 0, 0⟩ =
      .error (.ua (.emptyData "No feasible browser data available")) :=
  generate_empty_os_fails_emptyData _ _ _ rfl rfl

/-- Claim C8: loading a parsed catalog whose top-level mapping lacks the
`browsers` key, or whose `browsers` value is an empty list, fails with the
malformed-format refinement (`InvalidJSONFormatError`). -/
theorem load_missing_or_empty_browsers_malformed (json_file : String)
    (fields : List (String × Json))
    (h : fields.lookup "browsers" = none ∨
         fields.lookup "browsers" = some (.arr [])) :
    ∃ m, load_user_agents json_file ⟨true, true, some (.obj fields)⟩ =
      .error (.ua (.invalidJSONFormat m)) := by
  rcases h with h | h
  · refine ⟨"JSON data must contain a 'browsers' key", ?_⟩
    unfold load_user_agents load_raw
    simp [validate_json_structure, h, wrapLoad, PyExc.isUA,
      throw, throwThe, MonadExceptOf.throw, errBind, okBind, pureIsOk,
      errMap, okMap]
  · refine ⟨"'browsers' must be a non-empty list", ?_⟩
    unfold load_user_agents load_raw
    simp [validate_json_structure, h, wrapLoad, PyExc.isUA,
      throw, throwThe, MonadExceptOf.throw, errBind, okBind, pureIsOk,
      errMap, okMap]

/-- Claim C8, witness. -/
theorem load_missing_or_empty_browsers_malformed_witness :
    ∃ m, load_user_agents "f" ⟨true, true, some (.obj [])⟩ =
      .error (.ua (.invalidJSONFormat m)) :=
  load_missing_or_empty_browsers_malformed "f" [] (Or.inl rfl)

/-- Claim C9: the parenthesis check of `validate_user_agent` compares counts
only — a string whose first ')' comes before its first '(' still validates
when the counts agree and the other checks pass. -/
theorem validate_accepts_misordered_parens :
    ∃ ua : String, validate_user_agent ua = true ∧
      ua.data.count '(' = ua.data.count ')' ∧
      List.indexOf ')' ua.data < List.indexOf '(' ua.data ∧
      '(' ∈ ua.data ∧ ')' ∈ ua.data :=
  ⟨"Mozilla/5.0 ) ( Chrome on Windows NT", by decide⟩

/-- Claim C10: every error escaping `load_user_agents` or
`generate_user_agent` is in the `UserAgentError` hierarchy; a raw exception
outside the hierarchy is wrapped into the base `UserAgentError` by the
`except Exception` clauses. -/
theorem errors_stay_in_hierarchy (json_file : String) (fs : FileState)
    (data : Json) (c : Choices) :
    (∀ e, load_user_agents json_file fs = .error e → ∃ u, e = PyExc.ua u) ∧
    (∀ e, generate_user_agent data c = .error e → ∃ u, e = PyExc.ua u) ∧
    (∀ ex, load_raw json_file fs = .error ex → ex.isUA = false →
      load_user_agents json_file fs = .error (.ua (.base
        ("Error loading user agents: " ++ ex.message)))) ∧
    (∀ ex, generate_raw data c = .error ex → ex.isUA = false →
      generate_user_agent data c = .error (.ua (.base
        ("Error generating user agent: " ++ ex.message)))) := by
  refine ⟨fun e he => wrapLoad_error _ e he,
    fun e he => wrapGenerate_error _ e he, ?_, ?_⟩
  · intro ex hex hua
    unfold load_user_agents
    rw [hex]
    exact wrapLoad_nonua ex hua
  · intro ex hex hua
    unfold generate_user_agent
    rw [hex]
    exact wrapGenerate_nonua ex hua

/-- Claim C10, witness: a `UserAgentError` case and a wrapped builtin
(`PermissionError`) case. -/
theorem errors_stay_in_hierarchy_witness :
    (∃ u, PyExc.ua (UAError.fileNotFound "File not found: x") =
      PyExc.ua u) ∧
    load_user_agents "x" ⟨true, false, some (Json.obj [])⟩ =
      .error (.ua (.base ("Error loading user agents: " ++
        (PyExc.permissionError "Permission denied: Cannot read x").message))) := by
  constructor
  · exact (errors_stay_in_hierarchy "x" ⟨false, true, none⟩ Json.null
      ⟨0, 0, 0, 0⟩).1 _ rfl
  · exact (errors_stay_in_hierarchy "x" ⟨true, false, some (Json.obj [])⟩
      Json.null ⟨0, 0, 0, 0⟩).2.2.1 _ rfl rfl
